import Mathlib

/-!
Shallow embedding of the reservation policy / lifecycle core of the
CaseProject repository (a React-Native library-reservation front end).

Embedded source files:
* reservation-policy-service (src/unnamed/part_003): policy classes,
  policy factory (registry), `ReservationService`.
* graphql-service (src/unnamed/part_004): the store mutations
  (`CREATE_RESERVATION_MUTATION`, `UPDATE_BOOK_AVAILABILITY_MUTATION`,
  `CANCEL_RESERVATION_MUTATION`) and their field effects.
* `BookCard.handleReserve` (src/components/BookCard.tsx): the reserve
  coordinator.
* `ReservationsScreen.handleCancelReservation`
  (src/app/(tabs)/reservations.tsx): the cancel coordinator.

Modelling conventions:
* TypeScript numbers that are used as counts/limits/durations become `Int`.
* Instants (JS `Date`) become `Int` epoch milliseconds; advancing a `Date`
  by `d` days via `setDate(getDate() + d)` becomes adding `d * msPerDay`.
* A TS method that can `throw` becomes a function into `Except String`,
  carrying the thrown message.
* The results of the asynchronous store calls made by a coordinator run
  are supplied as an environment record (one `Except` per call site), and
  the run returns both the user-facing alert it raised and the trace of
  store mutation requests it issued, in order.
* `new Date()` inside `calculateExpirationDate` is a read of the ambient
  wall clock: it is passed to the embedding as an extra `wallClockNow`
  argument that the TypeScript caller does NOT supply (the source method
  has only the `userType` parameter).
-/

namespace CaseProject

/-- `User` from src/types/graphql.ts. `user_type` is a `String` because the
registry and the policies compare it against string keys at runtime. -/
structure User where
  id : String
  email : String
  name : String
  user_type : String
deriving DecidableEq

/-- `Book` from src/types/graphql.ts. -/
structure Book where
  id : String
  title : String
  author : String
  isbn : Option String
  available : Bool
  total_copies : Int
  available_copies : Int
deriving DecidableEq

/-- `Reservation` from src/types/graphql.ts (with the optional embedded
`book` used by the cancel screen). `expires_at` is an instant in epoch ms. -/
structure Reservation where
  id : String
  user_id : String
  book_id : String
  expires_at : Int
  status : String
  book : Option Book
deriving DecidableEq

/-- `ReservationPolicyBase` (src/unnamed/part_003): the abstract policy
interface, embedded as a record of its three methods. -/
structure ReservationPolicyBase where
  canReserve : User → Int → Bool
  getMaxReservations : Int
  getReservationDurationDays : Int

/-- `StudentReservationPolicy` (src/unnamed/part_003): applies only to
`user_type === 'student'`; max 5 reservations, 14 day duration. -/
def StudentReservationPolicy : ReservationPolicyBase :=
  let maxR : Int := 5
  { canReserve := fun user currentReservations =>
      user.user_type == "student" && decide (currentReservations < maxR)
    getMaxReservations := maxR
    getReservationDurationDays := 14 }

/-- `NormalUserReservationPolicy` (src/unnamed/part_003): applies only to
`user_type === 'normal'`; max 3 reservations, 7 day duration. -/
def NormalUserReservationPolicy : ReservationPolicyBase :=
  let maxR : Int := 3
  { canReserve := fun user currentReservations =>
      user.user_type == "normal" && decide (currentReservations < maxR)
    getMaxReservations := maxR
    getReservationDurationDays := 7 }

/-- The factory's `Map<string, ReservationPolicyBase>`, as an association
list in insertion order. -/
abbrev PolicyMap := List (String × ReservationPolicyBase)

/-- JS `Map.get`: the value bound to the key, if any. -/
def mapGet (m : PolicyMap) (k : String) : Option ReservationPolicyBase :=
  match m with
  | [] => none
  | (k₁, v) :: rest => if k₁ = k then some v else mapGet rest k

/-- JS `Map.set`: replace the existing binding for the key in place, or
append a new one (one entry per key, last registered wins). -/
def mapSet (m : PolicyMap) (k : String) (v : ReservationPolicyBase) : PolicyMap :=
  match m with
  | [] => [(k, v)]
  | (k₁, v₁) :: rest => if k₁ = k then (k₁, v) :: rest else (k₁, v₁) :: mapSet rest k v

/-- The registry state produced by `ReservationPolicyFactory`'s static
initializer: `student` and `normal` policies pre-registered. -/
def defaultPolicies : PolicyMap :=
  [("student", StudentReservationPolicy), ("normal", NormalUserReservationPolicy)]

/-- `ReservationPolicyFactory.getPolicy` (src/unnamed/part_003): looks the
user type up in the map and throws when no policy is registered. -/
def ReservationPolicyFactory.getPolicy (policies : PolicyMap) (userType : String) :
    Except String ReservationPolicyBase :=
  match mapGet policies userType with
  | some policy => .ok policy
  | none => .error ("No policy found for user type: " ++ userType)

/-- `ReservationPolicyFactory.registerPolicy` (src/unnamed/part_003):
`this.policies.set(userType, policy)`. -/
def ReservationPolicyFactory.registerPolicy (policies : PolicyMap) (userType : String)
    (policy : ReservationPolicyBase) : PolicyMap :=
  mapSet policies userType policy

/-- `ReservationService.canUserReserve` (src/unnamed/part_003): resolve the
policy for `user.user_type` and delegate to its `canReserve`. -/
def ReservationService.canUserReserve (policies : PolicyMap) (user : User)
    (currentReservations : Int) : Except String Bool :=
  match ReservationPolicyFactory.getPolicy policies user.user_type with
  | .error e => .error e
  | .ok policy => .ok (policy.canReserve user currentReservations)

/-- `ReservationService.getMaxReservations` (src/unnamed/part_003). -/
def ReservationService.getMaxReservations (policies : PolicyMap) (userType : String) :
    Except String Int :=
  match ReservationPolicyFactory.getPolicy policies userType with
  | .error e => .error e
  | .ok policy => .ok policy.getMaxReservations

/-- `ReservationService.getReservationDuration` (src/unnamed/part_003). -/
def ReservationService.getReservationDuration (policies : PolicyMap) (userType : String) :
    Except String Int :=
  match ReservationPolicyFactory.getPolicy policies userType with
  | .error e => .error e
  | .ok policy => .ok policy.getReservationDurationDays

/-- Milliseconds per day; `Date.setDate(getDate() + d)` advances the
instant by `d * msPerDay`. -/
def msPerDay : Int := 86400000

/-- `ReservationService.calculateExpirationDate` (src/unnamed/part_003).
The source method's only parameter is `userType`; `wallClockNow` models the
instant the method reads itself via `new Date()` — it is ambient clock
state, not an argument the TypeScript caller passes. -/
def ReservationService.calculateExpirationDate (policies : PolicyMap) (userType : String)
    (wallClockNow : Int) : Except String Int :=
  match ReservationService.getReservationDuration policies userType with
  | .error e => .error e
  | .ok duration => .ok (wallClockNow + duration * msPerDay)

/-- A mutation request issued to the GraphQL store (src/unnamed/part_004):
`CREATE_RESERVATION_MUTATION`, `UPDATE_BOOK_AVAILABILITY_MUTATION`,
`CANCEL_RESERVATION_MUTATION`. -/
inductive StoreRequest where
  | createReservation (userId : String) (bookId : String) (expiresAt : Int)
  | updateBookAvailability (bookId : String) (availableCopies : Int)
  | cancelReservation (reservationId : String)
deriving DecidableEq

/-- Whether a request is an availability update. -/
def StoreRequest.isUpdate : StoreRequest → Bool
  | .updateBookAvailability _ _ => true
  | _ => false

/-- Whether a request is a reservation creation. -/
def StoreRequest.isCreate : StoreRequest → Bool
  | .createReservation _ _ _ => true
  | _ => false

/-- Effect of a store request on a book row: `UPDATE_BOOK_AVAILABILITY_MUTATION`
does `_set: { available_copies: $availableCopies }` on the row with the
matching id; no other mutation touches books. -/
def applyRequestToBook (book : Book) (req : StoreRequest) : Book :=
  match req with
  | .updateBookAvailability bookId availableCopies =>
      if bookId = book.id then { book with available_copies := availableCopies } else book
  | _ => book

/-- Effect of a store request on a reservation row: `CANCEL_RESERVATION_MUTATION`
does `_set: { status: "cancelled" }` on the row with the matching id; the
availability update does not touch reservations. -/
def applyRequestToReservation (r : Reservation) (req : StoreRequest) : Reservation :=
  match req with
  | .cancelReservation reservationId =>
      if reservationId = r.id then { r with status := "cancelled" } else r
  | _ => r

deriving instance DecidableEq for Except

/-- The outcomes of the asynchronous store calls a `handleReserve` run makes,
plus the ambient wall clock `new Date()` reads during the run. -/
structure ReserveEnv where
  getUserReservations : Except Unit (List Reservation)
  createReservation : Except Unit Unit
  updateBookAvailability : Except Unit Unit
  wallClockNow : Int
deriving DecidableEq

/-- The generic alert raised by `handleReserve`'s catch-all block. -/
def reserveErrorAlert : String × String :=
  ("Error", "Failed to reserve the book. Please try again.")

/-- `handleReserve` (src/components/BookCard.tsx): the reserve coordinator.
Returns the alert shown to the user and the ordered trace of store mutation
requests issued. The availability guard runs before the `try` block; any
exception inside the `try` lands in the single catch-all, which raises
`reserveErrorAlert`. -/
def handleReserve (policies : PolicyMap) (user : User) (book : Book) (env : ReserveEnv) :
    (String × String) × List StoreRequest :=
  if book.available_copies = 0 then
    (("Not Available", "This book has no available copies."), [])
  else
    match env.getUserReservations with
    | .error _ => (reserveErrorAlert, [])
    | .ok currentReservations =>
      let reservationCount : Int := currentReservations.length
      match ReservationService.canUserReserve policies user reservationCount with
      | .error _ => (reserveErrorAlert, [])
      | .ok canRes =>
        if !canRes then
          match ReservationService.getMaxReservations policies user.user_type with
          | .error _ => (reserveErrorAlert, [])
          | .ok maxReservations =>
            (("Reservation Limit Reached",
              "You can only reserve up to " ++ toString maxReservations ++
                " books. Please return some books first."), [])
        else
          match ReservationService.calculateExpirationDate policies user.user_type
              env.wallClockNow with
          | .error _ => (reserveErrorAlert, [])
          | .ok expiresAt =>
            let trace₁ := [StoreRequest.createReservation user.id book.id expiresAt]
            match env.createReservation with
            | .error _ => (reserveErrorAlert, trace₁)
            | .ok _ =>
              let trace₂ := trace₁ ++
                [StoreRequest.updateBookAvailability book.id (book.available_copies - 1)]
              match env.updateBookAvailability with
              | .error _ => (reserveErrorAlert, trace₂)
              | .ok _ =>
                match ReservationService.getReservationDuration policies user.user_type with
                | .error _ => (reserveErrorAlert, trace₂)
                | .ok duration =>
                  (("Success!",
                    "\"" ++ book.title ++ "\" has been reserved successfully. " ++
                      "It will expire in " ++ toString duration ++ " days."), trace₂)

/-- The `mockUser` hard-coded in src/components/BookCard.tsx. -/
def mockUser : User :=
  { id := "user-123", email := "student@example.com", name := "John Doe",
    user_type := "student" }

/-- The user's choice in the confirmation dialog and the outcome of the
cancel mutation for a `handleCancelReservation` run. -/
structure CancelEnv where
  confirm : Bool
  cancelReservation : Except String Unit
deriving DecidableEq

/-- `reservation?.book?.title || 'this book'` (JS `||`: an empty title is
falsy and also falls back). -/
def cancelBookTitle (r : Reservation) : String :=
  match r.book with
  | some book => if book.title = "" then "this book" else book.title
  | none => "this book"

/-- `handleCancelReservation` (src/app/(tabs)/reservations.tsx): the cancel
coordinator. Returns the final alert raised after the confirmation dialog
(`none` when the user declines, so no alert beyond the dialog itself) and
the ordered trace of store mutation requests issued. -/
def handleCancelReservation (reservations : List Reservation) (reservationId : String)
    (env : CancelEnv) : Option (String × String) × List StoreRequest :=
  match reservations.find? (fun r => r.id == reservationId) with
  | none => (some ("Error", "Reservation not found."), [])
  | some reservation =>
    if reservation.status ≠ "active" then
      (some ("Cannot Cancel", "This reservation is already " ++ reservation.status ++ "."), [])
    else if !env.confirm then
      (none, [])
    else
      let trace := [StoreRequest.cancelReservation reservationId]
      match env.cancelReservation with
      | .error message => (some ("Error", message), trace)
      | .ok _ =>
        (some ("Success",
          "Reservation for \"" ++ cancelBookTitle reservation ++
            "\" has been cancelled successfully."), trace)

/-! ### Concrete demonstration inputs used by the witnesses -/

/-- A user with an unregistered classification. -/
def teacherUser : User :=
  { id := "t-1", email := "t@example.com", name := "Terry", user_type := "teacher" }

/-- A book with copies available. -/
def demoBook : Book :=
  { id := "book-1", title := "Dune", author := "Frank Herbert", isbn := none,
    available := true, total_copies := 3, available_copies := 2 }

/-- The same book with zero available copies. -/
def demoBookSoldOut : Book :=
  { demoBook with available_copies := 0 }

/-- A reserve run in which every store call succeeds. -/
def demoEnvOk : ReserveEnv :=
  { getUserReservations := .ok [], createReservation := .ok (),
    updateBookAvailability := .ok (), wallClockNow := 1705708800000 }

/-- A reserve run whose create succeeds and whose availability update
fails (partial success). -/
def demoEnvUpdateFails : ReserveEnv :=
  { demoEnvOk with updateBookAvailability := .error () }

/-- A reserve run whose create fails (full failure, before any mutation
succeeded). -/
def demoEnvCreateFails : ReserveEnv :=
  { demoEnvOk with createReservation := .error () }

/-- An active reservation for the demo book. -/
def demoActiveReservation : Reservation :=
  { id := "res-1", user_id := "user-123", book_id := "book-1",
    expires_at := 1706918400000, status := "active", book := some demoBook }

/-- A completed reservation for the demo book. -/
def demoCompletedReservation : Reservation :=
  { demoActiveReservation with id := "res-2", status := "completed" }

/-- Four active reservations already held by the user. -/
def fourActive : List Reservation :=
  [demoActiveReservation, demoActiveReservation, demoActiveReservation,
    demoActiveReservation]

/-- Five active reservations already held by the user. -/
def fiveActive : List Reservation :=
  demoActiveReservation :: fourActive

/-- A reserve run in which the user already holds four active reservations
and every store call succeeds. -/
def demoEnvFour : ReserveEnv :=
  { demoEnvOk with getUserReservations := Except.ok fourActive }

/-- A reserve run in which the user already holds five active reservations
and every store call succeeds. -/
def demoEnvFive : ReserveEnv :=
  { demoEnvOk with getUserReservations := Except.ok fiveActive }

/-- A cancel run where the user confirms and the mutation succeeds. -/
def demoCancelEnvOk : CancelEnv :=
  { confirm := true, cancelReservation := .ok () }

/-! ### Theorems for the claims -/

/-- C1: for a user whose classification is registered in the Policy Registry
(in its initial state: `student` and `normal`), `canUserReserve user n` is
`true` iff `n < getMaxReservations user.user_type`; in particular it is false
when `n` equals the maximum and for every larger `n`. -/
theorem canUserReserve_iff_below_max (u : User) (n m : Int)
    (hu : u.user_type = "student" ∨ u.user_type = "normal")
    (hm : ReservationService.getMaxReservations defaultPolicies u.user_type = .ok m) :
    ReservationService.canUserReserve defaultPolicies u n = .ok (decide (n < m)) := by
  rcases hu with h | h <;>
    simp_all [ReservationService.getMaxReservations, ReservationService.canUserReserve,
      ReservationPolicyFactory.getPolicy, mapGet, defaultPolicies,
      StudentReservationPolicy, NormalUserReservationPolicy]

/-- Witness for C1: the mock student with 4 active reservations may reserve
(4 < 5), and with 5 may not. -/
theorem canUserReserve_iff_below_max_witness :
    ReservationService.canUserReserve defaultPolicies mockUser 4 = .ok (decide ((4:Int) < 5)) ∧
    ReservationService.canUserReserve defaultPolicies mockUser 5 = .ok (decide ((5:Int) < 5)) :=
  ⟨canUserReserve_iff_below_max mockUser 4 5 (Or.inl rfl) (by rfl),
   canUserReserve_iff_below_max mockUser 5 5 (Or.inl rfl) (by rfl)⟩

/-- C2 counterexample: the source method `calculateExpirationDate(userType)`
has no `now` parameter — the instant is read inside the method by
`new Date()`. Two calls with the identical caller-supplied argument
(`"student"`) but different ambient wall clocks return different expiries,
so the operation is not deterministic in its explicit arguments and does
perform a hidden wall-clock read, refuting the claim as stated. -/
theorem calculateExpirationDate_reads_ambient_clock :
    ReservationService.calculateExpirationDate defaultPolicies "student" 0 ≠
      ReservationService.calculateExpirationDate defaultPolicies "student" msPerDay := by
  decide

/-- C2 amended: `calculateExpirationDate` takes only the classification; it
reads the current instant from the ambient wall clock internally, and returns
that instant plus `loanDurationDays` days (one day = `msPerDay` ms); it is
deterministic in the classification together with the ambient instant. -/
theorem calculateExpirationDate_spec (policies : PolicyMap) (userType : String)
    (wallClockNow d : Int)
    (h : ReservationService.getReservationDuration policies userType = .ok d) :
    ReservationService.calculateExpirationDate policies userType wallClockNow =
      .ok (wallClockNow + d * msPerDay) := by
  simp [ReservationService.calculateExpirationDate, h]

/-- Witness for the amended C2: a `normal` reservation made at
2024-01-20T00:00:00Z (epoch ms 1705708800000) expires 7 days later. -/
theorem calculateExpirationDate_spec_witness :
    ReservationService.calculateExpirationDate defaultPolicies "normal" 1705708800000 =
      .ok (1705708800000 + 7 * msPerDay) :=
  calculateExpirationDate_spec defaultPolicies "normal" 1705708800000 7 (by rfl)

/-- C3: when the target book has `available_copies = 0`, `handleReserve`
raises the `BookUnavailable` alert and issues no store request, for every
user and every store environment. -/
theorem reserve_bookUnavailable (policies : PolicyMap) (user : User) (book : Book)
    (env : ReserveEnv) (h : book.available_copies = 0) :
    handleReserve policies user book env =
      (("Not Available", "This book has no available copies."), []) := by
  simp [handleReserve, h]

/-- Witness for C3: the sold-out demo book cannot be reserved even by an
eligible user with every store call succeeding. -/
theorem reserve_bookUnavailable_witness :
    handleReserve defaultPolicies mockUser demoBookSoldOut demoEnvOk =
      (("Not Available", "This book has no available copies."), []) :=
  reserve_bookUnavailable defaultPolicies mockUser demoBookSoldOut demoEnvOk (by rfl)

/-- C8: on a classification with no registered policy, `getPolicy` throws
the lookup error, and every operation that resolves a policy
(`canUserReserve`, `getMaxReservations`, `getReservationDuration`,
`calculateExpirationDate`) propagates that same error; none of them falls
back to a default policy. -/
theorem unknownClassification_all_paths (policies : PolicyMap) (userType : String)
    (h : mapGet policies userType = none) :
    ReservationPolicyFactory.getPolicy policies userType =
      .error ("No policy found for user type: " ++ userType) ∧
    (∀ u : User, u.user_type = userType → ∀ n : Int,
      ReservationService.canUserReserve policies u n =
        .error ("No policy found for user type: " ++ userType)) ∧
    ReservationService.getMaxReservations policies userType =
      .error ("No policy found for user type: " ++ userType) ∧
    ReservationService.getReservationDuration policies userType =
      .error ("No policy found for user type: " ++ userType) ∧
    (∀ wallClockNow : Int,
      ReservationService.calculateExpirationDate policies userType wallClockNow =
        .error ("No policy found for user type: " ++ userType)) := by
  have hg : ReservationPolicyFactory.getPolicy policies userType =
      .error ("No policy found for user type: " ++ userType) := by
    simp [ReservationPolicyFactory.getPolicy, h]
  refine ⟨hg, ?_, ?_, ?_, ?_⟩
  · intro u hu n
    simp [ReservationService.canUserReserve, hu, hg]
  · simp [ReservationService.getMaxReservations, hg]
  · simp [ReservationService.getReservationDuration, hg]
  · intro wallClockNow
    simp [ReservationService.calculateExpirationDate,
      ReservationService.getReservationDuration, hg]

/-- Witness for C8: `teacher` is unregistered in the initial registry, so
both the lookup and an eligibility check for a teacher user fail with the
lookup error. -/
theorem unknownClassification_all_paths_witness :
    ReservationPolicyFactory.getPolicy defaultPolicies "teacher" =
      .error ("No policy found for user type: " ++ "teacher") ∧
    ReservationService.canUserReserve defaultPolicies teacherUser 0 =
      .error ("No policy found for user type: " ++ "teacher") :=
  ⟨(unknownClassification_all_paths defaultPolicies "teacher" (by rfl)).1,
   (unknownClassification_all_paths defaultPolicies "teacher" (by rfl)).2.1
      teacherUser (by rfl) 0⟩

/-- C10: each concrete policy hard-codes its classification — the student
policy denies any user whose `user_type` is not `"student"` and the normal
policy denies any user whose `user_type` is not `"normal"`, for every count;
hence registering the student policy under another key (e.g. `"teacher"`)
makes `canUserReserve` deny every reservation for users of that
classification. -/
theorem policy_hardcodes_classification (u : User) (n : Int) :
    (u.user_type ≠ "student" → StudentReservationPolicy.canReserve u n = false) ∧
    (u.user_type ≠ "normal" → NormalUserReservationPolicy.canReserve u n = false) ∧
    (u.user_type = "teacher" →
      ReservationService.canUserReserve
        (ReservationPolicyFactory.registerPolicy defaultPolicies "teacher"
          StudentReservationPolicy) u n = .ok false) := by
  refine ⟨fun h => ?_, fun h => ?_, fun h => ?_⟩
  · simp [StudentReservationPolicy, h]
  · simp [NormalUserReservationPolicy, h]
  · simp [ReservationService.canUserReserve, ReservationPolicyFactory.getPolicy,
      ReservationPolicyFactory.registerPolicy, mapSet, mapGet, defaultPolicies,
      StudentReservationPolicy, h]

/-- Witness for C10: a teacher user is denied by both concrete policies and
by the service even after the student policy is registered under
`"teacher"`. -/
theorem policy_hardcodes_classification_witness :
    StudentReservationPolicy.canReserve teacherUser 0 = false ∧
    NormalUserReservationPolicy.canReserve teacherUser 0 = false ∧
    ReservationService.canUserReserve
      (ReservationPolicyFactory.registerPolicy defaultPolicies "teacher"
        StudentReservationPolicy) teacherUser 0 = .ok false :=
  ⟨(policy_hardcodes_classification teacherUser 0).1 (by decide),
   (policy_hardcodes_classification teacherUser 0).2.1 (by decide),
   (policy_hardcodes_classification teacherUser 0).2.2 (by rfl)⟩

/-- Helper: the eligibility decision for a student user in the initial
registry is exactly the comparison against the student maximum 5. -/
theorem canUserReserve_student (u : User) (hu : u.user_type = "student") (n : Int) :
    ReservationService.canUserReserve defaultPolicies u n = .ok (decide (n < 5)) := by
  simp [ReservationService.canUserReserve, ReservationPolicyFactory.getPolicy,
    mapGet, defaultPolicies, StudentReservationPolicy, hu]

/-- Helper: the student maximum in the initial registry is 5. -/
theorem getMaxReservations_student :
    ReservationService.getMaxReservations defaultPolicies "student" = .ok 5 := rfl

/-- Helper: the student loan duration in the initial registry is 14 days. -/
theorem getReservationDuration_student :
    ReservationService.getReservationDuration defaultPolicies "student" = .ok 14 := rfl

/-- Helper: a student expiry is the ambient instant plus 14 days. -/
theorem calculateExpirationDate_student (t : Int) :
    ReservationService.calculateExpirationDate defaultPolicies "student" t =
      .ok (t + 14 * msPerDay) := rfl

/-- C4: for a student user (policy max 5), when the supplied active
reservation list makes the count at least 5, `handleReserve` raises the
limit alert carrying the maximum 5 and issues no store request; when the
count is strictly below 5 the reserve proceeds and issues the
create-reservation request. -/
theorem reserve_limitExceeded (user : User) (book : Book) (env : ReserveEnv)
    (rs : List Reservation)
    (hb : book.available_copies ≠ 0)
    (hu : user.user_type = "student")
    (hg : env.getUserReservations = .ok rs) :
    ((5:Int) ≤ rs.length →
      handleReserve defaultPolicies user book env =
        (("Reservation Limit Reached",
          "You can only reserve up to 5 books. Please return some books first."), [])) ∧
    ((rs.length:Int) < 5 →
      StoreRequest.createReservation user.id book.id (env.wallClockNow + 14 * msPerDay) ∈
        (handleReserve defaultPolicies user book env).2) := by
  constructor
  · intro h5
    have hcan : ReservationService.canUserReserve defaultPolicies user (rs.length:Int) =
        .ok false := by
      rw [canUserReserve_student user hu]
      simp
      omega
    simp [handleReserve, hb, hg, hcan, hu, getMaxReservations_student]
    rfl
  · intro h5
    have hcan : ReservationService.canUserReserve defaultPolicies user (rs.length:Int) =
        .ok true := by
      rw [canUserReserve_student user hu]
      simp
      omega
    cases hc : env.createReservation <;> cases hup : env.updateBookAvailability <;>
      simp [handleReserve, hb, hg, hcan, hc, hup, hu,
        calculateExpirationDate_student, getReservationDuration_student]

/-- Witness for C4: the mock student with 5 active reservations is refused
with the limit alert and no request; with 4 the create request is issued. -/
theorem reserve_limitExceeded_witness :
    (handleReserve defaultPolicies mockUser demoBook demoEnvFive =
      (("Reservation Limit Reached",
        "You can only reserve up to 5 books. Please return some books first."), [])) ∧
    (StoreRequest.createReservation mockUser.id demoBook.id
        (demoEnvFour.wallClockNow + 14 * msPerDay) ∈
      (handleReserve defaultPolicies mockUser demoBook demoEnvFour).2) :=
  ⟨(reserve_limitExceeded mockUser demoBook demoEnvFive fiveActive
      (by decide) rfl rfl).1 (by decide),
   (reserve_limitExceeded mockUser demoBook demoEnvFour fourActive
      (by decide) rfl rfl).2 (by decide)⟩

/-- C5: in every `handleReserve` run, an availability-update request is in
the trace iff a create-reservation request is in the trace and the create
call succeeded; and a run that reports success has issued exactly one
availability update, setting the book to `available_copies - 1`. -/
theorem reserve_update_iff_create_succeeded (policies : PolicyMap) (user : User)
    (book : Book) (env : ReserveEnv) :
    (((handleReserve policies user book env).2.filter StoreRequest.isUpdate ≠ []) ↔
      (((handleReserve policies user book env).2.filter StoreRequest.isCreate ≠ []) ∧
        env.createReservation = .ok ())) ∧
    ((handleReserve policies user book env).1.1 = "Success!" →
      (handleReserve policies user book env).2.filter StoreRequest.isUpdate =
        [StoreRequest.updateBookAvailability book.id (book.available_copies - 1)]) := by
  by_cases hb : book.available_copies = 0
  · simp [handleReserve, hb, StoreRequest.isUpdate, StoreRequest.isCreate]
  · cases hg : env.getUserReservations with
    | error e =>
      simp [handleReserve, hb, hg, reserveErrorAlert,
        StoreRequest.isUpdate, StoreRequest.isCreate]
    | ok rs =>
      cases hcan : ReservationService.canUserReserve policies user (rs.length:Int) with
      | error e =>
        simp [handleReserve, hb, hg, hcan, reserveErrorAlert,
          StoreRequest.isUpdate, StoreRequest.isCreate]
      | ok canRes =>
        cases canRes with
        | false =>
          cases hmax : ReservationService.getMaxReservations policies user.user_type <;>
            simp [handleReserve, hb, hg, hcan, hmax, reserveErrorAlert,
              StoreRequest.isUpdate, StoreRequest.isCreate]
        | true =>
          cases hexp : ReservationService.calculateExpirationDate policies user.user_type
              env.wallClockNow with
          | error e =>
            simp [handleReserve, hb, hg, hcan, hexp, reserveErrorAlert,
              StoreRequest.isUpdate, StoreRequest.isCreate]
          | ok expiresAt =>
            cases hc : env.createReservation with
            | error a =>
              simp [handleReserve, hb, hg, hcan, hexp, hc, reserveErrorAlert,
                StoreRequest.isUpdate, StoreRequest.isCreate, List.filter]
            | ok a =>
              cases hup : env.updateBookAvailability with
              | error a₁ =>
                simp [handleReserve, hb, hg, hcan, hexp, hc, hup, reserveErrorAlert,
                  StoreRequest.isUpdate, StoreRequest.isCreate, List.filter]
              | ok a₁ =>
                cases hdur : ReservationService.getReservationDuration policies
                    user.user_type <;>
                  simp [handleReserve, hb, hg, hcan, hexp, hc, hup, hdur,
                    reserveErrorAlert, StoreRequest.isUpdate, StoreRequest.isCreate,
                    List.filter]

/-- Witness for C5: in the all-successful demo run the availability update
trace is exactly one decrement of the demo book. -/
theorem reserve_update_iff_create_succeeded_witness :
    (handleReserve defaultPolicies mockUser demoBook demoEnvOk).2.filter
        StoreRequest.isUpdate =
      [StoreRequest.updateBookAvailability demoBook.id (demoBook.available_copies - 1)] :=
  (reserve_update_iff_create_succeeded defaultPolicies mockUser demoBook demoEnvOk).2
    (by rfl)

/-- C6 counterexample: a run in which the create succeeded and only the
availability update failed raises exactly the same generic alert as a run
in which the create itself failed before any mutation, and that alert does
not tell the caller the reservation succeeded — partial success is not
distinguishable from full failure in what `handleReserve` reports. -/
theorem reserve_partialFailure_not_distinguished :
    (handleReserve defaultPolicies mockUser demoBook demoEnvUpdateFails).1 =
      ("Error", "Failed to reserve the book. Please try again.") ∧
    (handleReserve defaultPolicies mockUser demoBook demoEnvCreateFails).1 =
      ("Error", "Failed to reserve the book. Please try again.") ∧
    (handleReserve defaultPolicies mockUser demoBook demoEnvUpdateFails).1 =
      (handleReserve defaultPolicies mockUser demoBook demoEnvCreateFails).1 := by
  decide

/-- C6 amended: when the create succeeded and the availability update then
failed, `handleReserve` reports the same generic error alert it uses for a
failure before any mutation (the caller is not told the reservation
succeeded); the partial success is visible only in the request trace, which
shows both requests were issued. -/
theorem reserve_partialFailure_generic (user : User) (book : Book) (env : ReserveEnv)
    (rs : List Reservation)
    (hb : book.available_copies ≠ 0)
    (hu : user.user_type = "student")
    (hg : env.getUserReservations = .ok rs)
    (hn : (rs.length:Int) < 5)
    (hc : env.createReservation = .ok ())
    (hup : env.updateBookAvailability = .error ()) :
    handleReserve defaultPolicies user book env =
      (reserveErrorAlert,
        [StoreRequest.createReservation user.id book.id (env.wallClockNow + 14 * msPerDay),
         StoreRequest.updateBookAvailability book.id (book.available_copies - 1)]) := by
  have hcan : ReservationService.canUserReserve defaultPolicies user (rs.length:Int) =
      .ok true := by
    rw [canUserReserve_student user hu]
    simp
    omega
  simp [handleReserve, hb, hg, hcan, hc, hup, hu, calculateExpirationDate_student]

/-- Witness for the amended C6: the demo partial-failure run reports the
generic error alert while its trace shows both requests. -/
theorem reserve_partialFailure_generic_witness :
    handleReserve defaultPolicies mockUser demoBook demoEnvUpdateFails =
      (reserveErrorAlert,
        [StoreRequest.createReservation mockUser.id demoBook.id
          (demoEnvUpdateFails.wallClockNow + 14 * msPerDay),
         StoreRequest.updateBookAvailability demoBook.id
          (demoBook.available_copies - 1)]) :=
  reserve_partialFailure_generic mockUser demoBook demoEnvUpdateFails []
    (by decide) rfl rfl (by decide) rfl rfl

/-- C7: when the reservation the id resolves to is not `active`,
`handleCancelReservation` raises the invalid-transition alert and issues no
store request; when it is `active`, the user confirms and the mutation
succeeds, the run reports success, issues exactly the cancel request, and
applying that request to the reservation row leaves it with status
`cancelled`. -/
theorem cancel_state_transitions (reservations : List Reservation)
    (reservationId : String) (env : CancelEnv) (r : Reservation)
    (hf : reservations.find? (fun x => x.id == reservationId) = some r) :
    (r.status ≠ "active" →
      handleCancelReservation reservations reservationId env =
        (some ("Cannot Cancel", "This reservation is already " ++ r.status ++ "."), [])) ∧
    (r.status = "active" → env.confirm = true → env.cancelReservation = .ok () →
      handleCancelReservation reservations reservationId env =
        (some ("Success",
          "Reservation for \"" ++ cancelBookTitle r ++
            "\" has been cancelled successfully."),
          [StoreRequest.cancelReservation reservationId]) ∧
      (List.foldl applyRequestToReservation r
        (handleCancelReservation reservations reservationId env).2).status =
          "cancelled") := by
  have hid : r.id = reservationId := by
    have h := List.find?_some hf
    simpa using h
  constructor
  · intro hst
    simp [handleCancelReservation, hf, hst]
  · intro hst hcf hok
    refine ⟨?_, ?_⟩
    · simp [handleCancelReservation, hf, hst, hcf, hok]
    · simp [handleCancelReservation, hf, hst, hcf, hok, applyRequestToReservation, hid]

/-- Witness for C7: cancelling the completed demo reservation is refused;
cancelling the active one succeeds, issues the cancel request, and the row
ends up `cancelled`. -/
theorem cancel_state_transitions_witness :
    (handleCancelReservation [demoCompletedReservation] "res-2" demoCancelEnvOk =
      (some ("Cannot Cancel", "This reservation is already completed."), [])) ∧
    (handleCancelReservation [demoActiveReservation] "res-1" demoCancelEnvOk =
      (some ("Success", "Reservation for \"Dune\" has been cancelled successfully."),
        [StoreRequest.cancelReservation "res-1"])) ∧
    (List.foldl applyRequestToReservation demoActiveReservation
      (handleCancelReservation [demoActiveReservation] "res-1" demoCancelEnvOk).2).status =
        "cancelled" := by
  refine ⟨?_, ?_, ?_⟩
  · exact (cancel_state_transitions [demoCompletedReservation] "res-2" demoCancelEnvOk
      demoCompletedReservation (by rfl)).1 (by decide)
  · exact ((cancel_state_transitions [demoActiveReservation] "res-1" demoCancelEnvOk
      demoActiveReservation (by rfl)).2 rfl rfl rfl).1
  · exact ((cancel_state_transitions [demoActiveReservation] "res-1" demoCancelEnvOk
      demoActiveReservation (by rfl)).2 rfl rfl rfl).2

/-- C9: no `handleCancelReservation` run ever issues an availability-update
request, so replaying any cancel run's trace against any book row leaves the
row — in particular its `available_copies` — unchanged. -/
theorem cancel_never_updates_availability (reservations : List Reservation)
    (reservationId : String) (env : CancelEnv) (book : Book) :
    List.foldl applyRequestToBook book
      (handleCancelReservation reservations reservationId env).2 = book ∧
    (handleCancelReservation reservations reservationId env).2.filter
      StoreRequest.isUpdate = [] := by
  unfold handleCancelReservation
  repeat' split
  all_goals simp [applyRequestToBook, StoreRequest.isUpdate, List.filter, List.foldl]

end CaseProject
